import Mathlib

/-!
Shallow embedding of the ComEd bill downloader (`src/downloader.mjs`,
`src/storage.mjs`, and the earlier revision of the downloader class that
carries `hasSessionExpired`), together with theorems settling the
specification claims about it.

Conventions of the embedding:
* timestamps are integers (milliseconds since the Unix epoch, as produced
  by JavaScript `Date.prototype.valueOf`);
* fallible operations return `Except DlError _`; a JavaScript runtime
  fault (e.g. reading a property of `undefined`) is modelled as `none` of
  an `Option`;
* network and browser side effects are made explicit: each operation also
  returns the ordered list of external `Event`s it performed, and the
  responses of the external endpoints are inputs (environment records).
-/

/-- A puppeteer cookie record, restricted to the fields the downloader and
its storage layer read or persist.  `session = true` marks a transient
(session-scoped) cookie; `expires` is the cookie's expiry timestamp. -/
structure Cookie where
  name : String
  value : String
  domain : String
  path : String
  expires : Int
  session : Bool
  secure : Bool
  httpOnly : Bool
deriving DecidableEq, Repr

/-- The mutable private fields of a `ComEdBillDownloader` instance:
`#isAuthenticated`, `#bearerToken`, `#activeAccount`, `#sessionCookies`.
`bearerToken = none` models the JavaScript value `undefined`. -/
structure DownloaderState where
  isAuthenticated : Bool
  bearerToken : Option String
  activeAccount : Option String
  sessionCookies : List Cookie
deriving DecidableEq, Repr

/-- The field initialisers of the class: `#isAuthenticated = false`,
`#bearerToken = undefined`, `#activeAccount = undefined`,
`#sessionCookies = []`. -/
def initialState : DownloaderState :=
  { isAuthenticated := false
    bearerToken := none
    activeAccount := none
    sessionCookies := [] }

/-- `get _sessionCookiesHttpString`: the cookies joined as
`name=value; name=value; ...`. -/
def sessionCookiesHttpString (cookies : List Cookie) : String :=
  String.intercalate "; " (cookies.map (fun c => c.name ++ "=" ++ c.value))

/-- The error taxonomy of the downloader, one constructor per distinct
`throw` site. -/
inductive DlError where
  /-- `AuthenticationError('Operation can only be performed after authentication.')` -/
  | authenticationRequired
  /-- `Error('Failed to get bearer token.')` -/
  | tokenDerivationFailed
  /-- `response.json()` rejected (body is not valid JSON). -/
  | invalidJson
  /-- `Error('Failed to activate the specified account.')` -/
  | accountActivationFailed
  /-- `Error('Unable to gather the bills issued in the last 24 months.')` -/
  | billHistoryFailed
  /-- `Error('Failed to download bill. ...')` -/
  | downloadFailed
  /-- `Error('Invalid date range provided. The "from" date must be within the last 24 months.')` -/
  | invalidRangeFrom
  /-- `Error('Invalid date range provided. The "to" date cannot be in the future.')` -/
  | invalidRangeTo
  /-- `Error('Invalid date range provided. The "form" date must be before the "to" date.')` -/
  | invalidRangeOrder
deriving DecidableEq, Repr

/-- The external side effects an operation can perform, in order. -/
inductive Event where
  /-- GET `getsession` (bearer-token derivation), with the cookie header sent. -/
  | getSessionRequest (cookieHeader : String)
  /-- The interactive browser login flow was launched. -/
  | interactiveLogin
  /-- POST `ViewAccount` activating the given account. -/
  | activateRequest (account : String)
  /-- POST `billing/history`. -/
  | billHistoryRequest
  /-- GET `billing/<date>/pdf` for the bill with the given date. -/
  | downloadRequest (date : Int)
  /-- `saveCookies` was invoked (fire-and-forget persistence). -/
  | saveAttempt
deriving DecidableEq, Repr

/-!
### Session validator (`hasSessionExpired`, earlier revision of the class)

```js
hasSessionExpired() {
  const now = Date.now();
  const expirationDate = this._sessionCookies
    .filter(cookie => cookie.session)[0].expires;
  return now >= expirationDate;
}
```

`.filter(...)[0]` is `undefined` when no cookie has `session` set, and
reading `.expires` of `undefined` is a runtime `TypeError`; that fault is
modelled as `none`.
-/

/-- `hasSessionExpired` as written: filter the cookies whose `session`
flag is set, read `expires` of the first one, compare with `now`. -/
def hasSessionExpired (cookies : List Cookie) (now : Int) : Option Bool :=
  match cookies.filter (fun c => c.session) with
  | [] => none
  | c :: _ => some (decide (c.expires ≤ now))

/-- A transient (session-scoped) cookie whose recorded expiry is in the past. -/
def transientCookie : Cookie :=
  { name := "X-Session"
    value := "s"
    domain := "secure.comed.com"
    path := "/"
    expires := 100
    session := true
    secure := true
    httpOnly := true }

/-- A persistent provider-domain cookie expiring far in the future. -/
def persistentCookie : Cookie :=
  { name := "sid"
    value := "abc"
    domain := "secure.comed.com"
    path := "/"
    expires := 1000000
    session := false
    secure := true
    httpOnly := true }

/-!
### Bearer-token derivation (`getBearerToken`)

```js
async getBearerToken() {
  if (!this.#isAuthenticated) throw new AuthenticationError('...');
  const url = `${BASE_URL}api/services/myaccountservice.svc/getsession`;
  const response = await fetch(url, { headers: { cookie: this._sessionCookiesHttpString }, method: 'GET' });
  if (response.ok === false) throw new Error('Failed to get bearer token.', { cause: response });
  const result = await response.json();
  return result.token;
}
```

The response of the `getsession` endpoint is an input: `ok` is
`response.ok`; `json = none` means the body is not valid JSON (so
`response.json()` rejects); `json = some tf` means the body parses, with
`tf` the value of its `token` field (`none` when the field is absent, i.e.
`result.token === undefined`).
-/

/-- Environment record for one `getsession` fetch. -/
structure GetSessionResponse where
  ok : Bool
  json : Option (Option String)
deriving DecidableEq, Repr

/-- `getBearerToken` as written: the authentication guard runs *before*
the fetch, so an unauthenticated call throws without issuing any request.
On a successful response the returned value is `result.token`, which may
be `undefined` (`none`). -/
def getBearerToken (st : DownloaderState) (resp : GetSessionResponse) :
    List Event × Except DlError (Option String) :=
  if st.isAuthenticated = false then
    ([], .error .authenticationRequired)
  else
    ([.getSessionRequest (sessionCookiesHttpString st.sessionCookies)],
      if resp.ok = false then .error .tokenDerivationFailed
      else
        match resp.json with
        | none => .error .invalidJson
        | some tf => .ok tf)

/-- A downloader state that has completed authentication. -/
def authedState : DownloaderState :=
  { isAuthenticated := true
    bearerToken := some "tok0"
    activeAccount := none
    sessionCookies := [persistentCookie] }

/-!
### Auth manager (`authenticate`)

```js
async authenticate(username, password) {
  const cookies = await ComEdBillDownloader.getCookies(username);
  if (cookies) {
    try {
      this.#bearerToken = await this.getBearerToken();
      this.#sessionCookies = cookies;
      this.#isAuthenticated = true;
      return;
    } catch { /* fall through to interactive login */ }
  };
  // ... puppeteer interactive login ...
  this.#sessionCookies = await page.cookies();
  this.#isAuthenticated = true;
  this.#bearerToken = await this.getBearerToken();
  try { ComEdBillDownloader.saveCookies(username, this.#sessionCookies )} catch {}
  browser.close();
}
```

Environment inputs: the stored cookie cache (result of `getCookies`), the
`getsession` response served to the cached-session probe, the cookies the
interactive browser login would produce, the `getsession` response served
after that login, and whether persisting the cookies fails.  Note the
faithful ordering quirk: the probe `this.getBearerToken()` runs on the
*current* instance state — before `#sessionCookies`/`#isAuthenticated`
are updated from the cache.
-/

/-- Environment record for one `authenticate` call. -/
structure AuthEnv where
  cached : Option (List Cookie)
  probeResp : GetSessionResponse
  loginCookies : List Cookie
  postLoginResp : GetSessionResponse
  saveFails : Bool

/-- The outcome of the fire-and-forget `saveCookies` call. -/
def saveCookiesOutcome (fails : Bool) : Except String Unit :=
  if fails then .error "persistence failure" else .ok ()

/-- `try { e } catch {}`: any error of the body is swallowed. -/
def tryCatchIgnore {α : Type} (r : Except String α) : Except DlError Unit :=
  match r with
  | .ok _ => .ok ()
  | .error _ => .ok ()

/-- Step 2 of `authenticate` (the interactive browser login path): launch
the browser, adopt the cookies it produces, set `#isAuthenticated`, derive
the bearer token, then fire-and-forget `saveCookies` inside
`try { ... } catch {}`. -/
def freshLogin (st : DownloaderState) (env : AuthEnv) :
    List Event × Except DlError DownloaderState :=
  match getBearerToken
      { st with sessionCookies := env.loginCookies, isAuthenticated := true }
      env.postLoginResp with
  | (evs2, .error e) => (Event.interactiveLogin :: evs2, .error e)
  | (evs2, .ok tok) =>
    match tryCatchIgnore (saveCookiesOutcome env.saveFails) with
    | .error e => (Event.interactiveLogin :: evs2, .error e)
    | .ok _ =>
      (Event.interactiveLogin :: (evs2 ++ [Event.saveAttempt]),
        .ok { st with
          sessionCookies := env.loginCookies
          isAuthenticated := true
          bearerToken := tok })

/-- `authenticate` as written, with its external effects explicit.  Step 1
probes the cached session with `this.getBearerToken()` *on the current
instance state*; any error there is caught and the call falls through to
`freshLogin`. -/
def authenticate (st : DownloaderState) (env : AuthEnv) :
    List Event × Except DlError DownloaderState :=
  match env.cached with
  | none => freshLogin st env
  | some cookies =>
    match getBearerToken st env.probeResp with
    | (evs, .ok tok) =>
      (evs, .ok { st with
        bearerToken := tok
        sessionCookies := cookies
        isAuthenticated := true })
    | (evs, .error _) =>
      match freshLogin st env with
      | (evs2, r) => (evs ++ evs2, r)

/-!
### Dates

`bulkDownload` computes `sub(new Date().valueOf(), { months: 12 })` and
compares `Date.prototype.valueOf()` timestamps.  A JavaScript instant is
modelled as a proleptic-Gregorian calendar date plus the milliseconds
elapsed within that day; date-fns `sub(date, { months: n })` decrements
the month field and clamps the day of month to the target month's length,
preserving the time of day; `valueOf` is the epoch-day number times
86400000 plus the time of day (UTC).
-/

/-- A calendar instant: year, month (1–12), day of month, and
milliseconds within the day. -/
structure CalDate where
  year : Int
  month : Nat
  day : Nat
  msOfDay : Int
deriving DecidableEq, Repr

/-- Gregorian leap-year test. -/
def isLeapYear (y : Int) : Bool :=
  y % 4 = 0 && (y % 100 ≠ 0 || y % 400 = 0)

/-- Number of days in month `m` (1–12) of year `y`. -/
def daysInMonth (y : Int) (m : Nat) : Nat :=
  match m with
  | 1 => 31
  | 2 => if isLeapYear y then 29 else 28
  | 3 => 31
  | 4 => 30
  | 5 => 31
  | 6 => 30
  | 7 => 31
  | 8 => 31
  | 9 => 30
  | 10 => 31
  | 11 => 30
  | 12 => 31
  | _ => 0

/-- date-fns `sub(d, { months: n })`: move the month field back `n`
months, clamping the day of month to the length of the target month. -/
def subMonths (d : CalDate) (n : Nat) : CalDate :=
  let total : Int := d.year * 12 + ((d.month : Int) - 1) - (n : Int)
  let y : Int := total.ediv 12
  let m : Nat := (total.emod 12).toNat + 1
  { year := y
    month := m
    day := min d.day (daysInMonth y m)
    msOfDay := d.msOfDay }

/-- Days from the epoch (1970-01-01) to the given civil date
(proleptic Gregorian). -/
def daysFromCivil (y : Int) (m : Nat) (d : Nat) : Int :=
  let y' : Int := if m ≤ 2 then y - 1 else y
  let era : Int := y'.ediv 400
  let yoe : Int := y' - era * 400
  let mp : Int := if 2 < m then (m : Int) - 3 else (m : Int) + 9
  let doy : Int := (153 * mp + 2).ediv 5 + (d : Int) - 1
  let doe : Int := yoe * 365 + yoe.ediv 4 - yoe.ediv 100 + doy
  era * 146097 + doe - 719468

/-- `Date.prototype.valueOf()`: milliseconds since the epoch. -/
def toMillis (d : CalDate) : Int :=
  daysFromCivil d.year d.month d.day * 86400000 + d.msOfDay

/-!
### Bill retrieval (`bulkDownload`, `activateAccount`, `getBills`,
`downloadBill`)

```js
async bulkDownload(accountNumber, from, to, saveDirectory) {
  if (this.#isAuthenticated === false) throw new AuthenticationError('...');
  if (this.#activeAccount !== accountNumber) await this.activateAccount(accountNumber);

  const systemUpperTimeLimit = new Date().valueOf();
  const systemLowerTimeLimit = sub(systemUpperTimeLimit, { months: 12 }).valueOf();
  const userUpperTimeLimit = to.valueOf();
  const userLowerTimeLimit = from.valueOf();

  if (userLowerTimeLimit < systemLowerTimeLimit) throw new Error('... "from" ... within the last 24 months.');
  if (userUpperTimeLimit > systemUpperTimeLimit) throw new Error('... "to" ... future.');
  if (userLowerTimeLimit > userUpperTimeLimit) throw new Error('... "form" ... before the "to" date.');

  const bills = await this.getBills();
  const billsInTimeRange = bills.filter(bill => {
    const time = new Date(bill.date).valueOf();
    return time >= userLowerTimeLimit && time <= userUpperTimeLimit;
  });
  for (const bill of billsInTimeRange) { ... await this.downloadBill(bill, saveDirectory); ... }
}
```

A bill record is modelled by the timestamp its `date` field parses to.
Environment inputs: the current instant, the `ViewAccount` response, the
`billing/history` response, and the per-bill outcome of the
`billing/<date>/pdf` requests.
-/

/-- A record of `data.billing_and_payment_history`, reduced to the parsed
timestamp of its `date` field. -/
structure BillRecord where
  date : Int
deriving DecidableEq, Repr

/-- Environment record for one `bulkDownload` call. -/
structure BulkEnv where
  now : CalDate
  activateOk : Bool
  billsOk : Bool
  bills : List BillRecord
  downloadOk : Int → Bool

/-- `activateAccount` as written: POST `ViewAccount`; on a non-success
response throw, otherwise set `#activeAccount`. -/
def activateAccount (st : DownloaderState) (accountNumber : String)
    (activateOk : Bool) :
    List Event × Except DlError DownloaderState :=
  ([Event.activateRequest accountNumber],
    if activateOk = false then .error .accountActivationFailed
    else .ok { st with activeAccount := some accountNumber })

/-- The `for (const bill of billsInTimeRange)` loop: download each bill in
listing order; the first failed request aborts the remaining ones. -/
def downloadLoop (downloadOk : Int → Bool) :
    List BillRecord → List Event × Except DlError Unit
  | [] => ([], .ok ())
  | b :: rest =>
    if downloadOk b.date then
      match downloadLoop downloadOk rest with
      | (evs, r) => (Event.downloadRequest b.date :: evs, r)
    else ([Event.downloadRequest b.date], .error .downloadFailed)

/-- `getBills` as written: guard on `#isAuthenticated`, then POST
`billing/history` and return `data.billing_and_payment_history`. -/
def getBills (st : DownloaderState) (billsOk : Bool)
    (bills : List BillRecord) :
    List Event × Except DlError (List BillRecord) :=
  if st.isAuthenticated = false then ([], .error .authenticationRequired)
  else
    ([Event.billHistoryRequest],
      if billsOk = false then .error .billHistoryFailed else .ok bills)

/-- The three date-range guards of `bulkDownload`, in source order. -/
def validateRange (now : CalDate) (fromMs toMs : Int) : Except DlError Unit :=
  if fromMs < toMillis (subMonths now 12) then .error .invalidRangeFrom
  else if toMs > toMillis now then .error .invalidRangeTo
  else if fromMs > toMs then .error .invalidRangeOrder
  else .ok ()

/-- The part of `bulkDownload` after the authentication guard and account
activation: date-range validation, history fetch, client-side filter to
`[from, to]` inclusive, sequential downloads. -/
def bulkDownloadRest (st1 : DownloaderState) (fromMs toMs : Int)
    (env : BulkEnv) : List Event × Except DlError DownloaderState :=
  match validateRange env.now fromMs toMs with
  | .error e => ([], .error e)
  | .ok _ =>
    let gb := getBills st1 env.billsOk env.bills
    match gb.2 with
    | .error e => (gb.1, .error e)
    | .ok bills =>
      let dl := downloadLoop env.downloadOk
        (bills.filter (fun b => fromMs ≤ b.date && b.date ≤ toMs))
      match dl.2 with
      | .error e => (gb.1 ++ dl.1, .error e)
      | .ok _ => (gb.1 ++ dl.1, .ok st1)

/-- `bulkDownload` as written: authentication guard, lazy account
activation, then `bulkDownloadRest`. -/
def bulkDownload (st : DownloaderState) (accountNumber : String)
    (fromMs toMs : Int) (env : BulkEnv) :
    List Event × Except DlError DownloaderState :=
  if st.isAuthenticated = false then ([], .error .authenticationRequired)
  else
    let act :=
      if st.activeAccount ≠ some accountNumber then
        activateAccount st accountNumber env.activateOk
      else ([], .ok st)
    match act.2 with
    | .error e => (act.1, .error e)
    | .ok st1 =>
      let rest := bulkDownloadRest st1 fromMs toMs env
      (act.1 ++ rest.1, rest.2)

instance {ε α : Type} [DecidableEq ε] [DecidableEq α] :
    DecidableEq (Except ε α) := fun x y =>
  match x, y with
  | .ok a, .ok b =>
    if h : a = b then .isTrue (h ▸ rfl)
    else .isFalse (fun hc => h (Except.ok.inj hc))
  | .error a, .error b =>
    if h : a = b then .isTrue (h ▸ rfl)
    else .isFalse (fun hc => h (Except.error.inj hc))
  | .ok _, .error _ => .isFalse (fun hc => Except.noConfusion hc)
  | .error _, .ok _ => .isFalse (fun hc => Except.noConfusion hc)

/-- A downloader state that is authenticated with account 9999 already
active. -/
def authedActive9999 : DownloaderState :=
  { isAuthenticated := true
    bearerToken := some "tok0"
    activeAccount := some "9999"
    sessionCookies := [persistentCookie] }

/-- A downloader state that is authenticated with no active account yet. -/
def authedNoAccount : DownloaderState :=
  { isAuthenticated := true
    bearerToken := some "tok0"
    activeAccount := none
    sessionCookies := [persistentCookie] }

/-- A benign environment: current time 2024-06-01, every endpoint
succeeds, empty billing history. -/
def benignEnv : BulkEnv :=
  { now := ⟨2024, 6, 1, 0⟩
    activateOk := true
    billsOk := true
    bills := []
    downloadOk := fun _ => true }

/-- History returned by the stub endpoint of the C7 scenario: three
records, the second outside the requested range. -/
def sampleBills : List BillRecord :=
  [⟨toMillis ⟨2023, 8, 1, 0⟩⟩, ⟨toMillis ⟨2022, 1, 1, 0⟩⟩,
   ⟨toMillis ⟨2024, 4, 1, 0⟩⟩]

/-- Environment of the C7 scenario witness. -/
def sampleEnv : BulkEnv :=
  { now := ⟨2024, 6, 1, 0⟩
    activateOk := true
    billsOk := true
    bills := sampleBills
    downloadOk := fun _ => true }

/-- Whether an event is an account-activation request (`ViewAccount`). -/
def isActivation : Event → Bool
  | .activateRequest _ => true
  | _ => false

/-- Number of account-activation requests in a trace. -/
def countActivations (evs : List Event) : Nat :=
  evs.countP isActivation

/-!
### Session store (`TemporaryStorage`, `getCookies` / `saveCookies`)

```js
constructor(bucketName) {
  const hash = crypto.createHash('md5').update(bucketName).digest('hex');
  this._directory = path.resolve(os.tmpdir(), `bucket-${this._sanitizeKey(hash)}`);
}
_sanitizeKey(key) { return key.replace(/[<>:"\/\\|?*\x00-\x1F]/g, '_'); }
async set(key, value) { await fsp.mkdir(this._directory, { recursive: true });
  const filePath = path.join(this._directory, `${this._sanitizeKey(key)}.tmp`);
  await fsp.writeFile(filePath, value, 'utf8'); }
async get(key) { try { const filePath = path.join(this._directory, `${this._sanitizeKey(key)}.tmp`);
  return await fsp.readFile(filePath, 'utf8'); } catch (err) {
  if (err.code === 'ENOENT') return null; throw err; } }
```

```js
static async getCookies(username) {
  const storage = new TemporaryStorage(username);
  const cookiesJSON = await storage.get('cookies');
  if (cookiesJSON === null) return null;
  try { return JSON.parse(cookiesJSON); } catch { return null; }
}
static async saveCookies(username, cookies) {
  const storage = new TemporaryStorage(username);
  const cookieJSON = JSON.stringify(cookies);
  return storage.set('cookies', cookieJSON);
}
```

The filesystem is a path-to-content association list (latest write
first); the MD5 hex digest is an opaque function parameter — its only
property relevant here is that it is a function (same username, same
digest).  The serialized UTF-8 text `JSON.stringify` produces is
modelled by its parse tree: a `Json` value; `JSON.parse` restricted to
such content is the structural decoder below. -/

/-- A JSON value (parse tree of the serialized cookie snapshot). -/
inductive Json where
  | str (s : String)
  | num (n : Int)
  | bool (b : Bool)
  | arr (elems : List Json)
  | obj (fields : List (String × Json))

/-- The filesystem: maps absolute paths to (the parse trees of) file
contents, most recent write first. -/
def FileSystem : Type := List (String × Json)

/-- `_sanitizeKey`: replace the characters invalid in file names with
underscores. -/
def isInvalidFileChar (c : Char) : Bool :=
  c = '<' || c = '>' || c = ':' || c = '"' || c = '/' || c = '\\'
    || c = '|' || c = '?' || c = '*' || c.toNat ≤ 0x1F

/-- `_sanitizeKey` as written. -/
def sanitizeKey (s : String) : String :=
  String.map (fun c => if isInvalidFileChar c then '_' else c) s

/-- `this._directory` of `new TemporaryStorage(bucketName)`. -/
def bucketDirectory (md5hex : String → String) (bucketName : String) :
    String :=
  "/tmp/bucket-" ++ sanitizeKey (md5hex bucketName)

/-- The file path `set`/`get` use for a key inside a bucket directory. -/
def storageFilePath (dir key : String) : String :=
  dir ++ "/" ++ sanitizeKey key ++ ".tmp"

/-- `TemporaryStorage.set`: write (overwrite) the file for `key`. -/
def storageSet (fs : FileSystem) (dir key : String) (value : Json) :
    FileSystem :=
  (storageFilePath dir key, value) :: fs

/-- `TemporaryStorage.get`: read the file for `key`; a missing file
(`ENOENT`) is the `null` outcome. -/
def storageGet (fs : FileSystem) (dir key : String) : Option Json :=
  fs.lookup (storageFilePath dir key)

/-- `JSON.stringify` of one puppeteer cookie record. -/
def cookieToJson (c : Cookie) : Json :=
  .obj [("name", .str c.name), ("value", .str c.value),
    ("domain", .str c.domain), ("path", .str c.path),
    ("expires", .num c.expires), ("session", .bool c.session),
    ("secure", .bool c.secure), ("httpOnly", .bool c.httpOnly)]

/-- `JSON.parse` of one serialized cookie record. -/
def cookieOfJson : Json → Option Cookie
  | .obj [("name", .str n), ("value", .str v), ("domain", .str d),
      ("path", .str p), ("expires", .num e), ("session", .bool s),
      ("secure", .bool sec), ("httpOnly", .bool h)] =>
    some ⟨n, v, d, p, e, s, sec, h⟩
  | _ => none

/-- `JSON.stringify` of a cookie array. -/
def cookiesToJson (cookies : List Cookie) : Json :=
  .arr (cookies.map cookieToJson)

/-- `JSON.parse` of a serialized list of cookie records. -/
def cookiesOfJsonList : List Json → Option (List Cookie)
  | [] => some []
  | j :: js =>
    match cookieOfJson j, cookiesOfJsonList js with
    | some c, some cs => some (c :: cs)
    | _, _ => none

/-- `JSON.parse` of a serialized cookie array. -/
def cookiesOfJson : Json → Option (List Cookie)
  | .arr l => cookiesOfJsonList l
  | _ => none

/-- `ComEdBillDownloader.saveCookies` as written. -/
def saveCookies (md5hex : String → String) (fs : FileSystem)
    (username : String) (cookies : List Cookie) : FileSystem :=
  storageSet fs (bucketDirectory md5hex username) "cookies"
    (cookiesToJson cookies)

/-- `ComEdBillDownloader.getCookies` as written: `null` when nothing is
stored, `null` when the stored text does not parse, the parsed cookie
array otherwise. -/
def getCookies (md5hex : String → String) (fs : FileSystem)
    (username : String) : Option (List Cookie) :=
  match storageGet fs (bucketDirectory md5hex username) "cookies" with
  | none => none
  | some j => cookiesOfJson j

/-- C4, counterexample: at time 200, every non-transient provider-domain
cookie of this session expires strictly in the future (so the claim says
"usable"), yet `hasSessionExpired` reports the session expired, because it
inspects exactly the transient cookies the claim says are excluded. -/
theorem hasSessionExpired_not_cookie_expiry_strategy :
    hasSessionExpired [transientCookie, persistentCookie] 200 = some true
      ∧ ∀ c ∈ [transientCookie, persistentCookie],
          c.session = false → 200 < c.expires := by
  decide

/-- C4, amended: `hasSessionExpired` inspects only the session-scoped
(transient) cookies, regardless of domain, and reports the session expired
exactly when `now` has reached the expiry recorded on the *first* such
cookie; non-transient cookies never influence the verdict. -/
theorem hasSessionExpired_first_transient_cookie (cookies : List Cookie)
    (now : Int) (c : Cookie) (l : List Cookie)
    (h : cookies.filter (fun x => x.session) = c :: l) :
    hasSessionExpired cookies now = some (decide (c.expires ≤ now)) := by
  simp only [hasSessionExpired, h]

/-- C4 amended, witness: the two-cookie session above at time 200. -/
theorem hasSessionExpired_first_transient_cookie_witness :
    hasSessionExpired [transientCookie, persistentCookie] 200
      = some (decide (transientCookie.expires ≤ (200 : Int))) :=
  hasSessionExpired_first_transient_cookie
    [transientCookie, persistentCookie] 200 transientCookie [] (by decide)

/-- C10: `hasSessionExpired` yields a boolean verdict exactly when the
cookie list contains at least one session-scoped cookie (it then reads the
first such cookie's expiry); with no session-scoped cookie — in particular
on the empty list — the unguarded `[0].expires` access faults (`none`). -/
theorem hasSessionExpired_requires_transient_cookie (cookies : List Cookie)
    (now : Int) :
    (hasSessionExpired cookies now = none ↔ ∀ c ∈ cookies, c.session = false)
      ∧ (∀ c l, cookies.filter (fun x => x.session) = c :: l →
          hasSessionExpired cookies now = some (decide (c.expires ≤ now)))
      ∧ hasSessionExpired [] now = none := by
  refine ⟨?_, ?_, rfl⟩
  · unfold hasSessionExpired
    rcases hf : cookies.filter (fun x => x.session) with - | ⟨c, l⟩ <;> rw [hf]
    · constructor
      · intro _ c hc
        have := List.filter_eq_nil_iff.mp hf c hc
        simpa using this
      · intro _
        rfl
    · constructor
      · intro h
        cases h
      · intro hall
        have hc : c ∈ cookies.filter (fun x => x.session) := by
          rw [hf]; exact List.mem_cons_self c l
        have h1 := (List.mem_filter.mp hc).1
        have h2 := (List.mem_filter.mp hc).2
        rw [hall c h1] at h2
        cases h2
  · intro c l h
    simp only [hasSessionExpired, h]

/-- C10, witness: a one-cookie list with a transient cookie gets a
verdict; the characterisation instantiated at time 200. -/
theorem hasSessionExpired_requires_transient_cookie_witness :
    (hasSessionExpired [persistentCookie] 200 = none
        ↔ ∀ c ∈ [persistentCookie], c.session = false)
      ∧ (∀ c l, [persistentCookie].filter (fun x => x.session) = c :: l →
          hasSessionExpired [persistentCookie] 200
            = some (decide (c.expires ≤ (200 : Int))))
      ∧ hasSessionExpired [] 200 = none :=
  hasSessionExpired_requires_transient_cookie [persistentCookie] 200

/-- C5, counterexample: a successful `getsession` response whose JSON body
lacks the `token` field does not make `getBearerToken` fail — it returns
normally with `result.token = undefined`; the claim says this case fails
with an authentication error. -/
theorem getBearerToken_missing_token_returns_undefined :
    getBearerToken authedState { ok := true, json := some none }
      = ([Event.getSessionRequest "sid=abc"], Except.ok none) := by
  rfl

/-- C5, amended, for a call made after authentication (the claim's
setting): `getBearerToken` fails when the response is not successful (or
its body is not valid JSON, so that reading it fails); a successful
response whose JSON body merely lacks the `token` field does *not* make
it fail — it returns the body's `token` field unchanged, i.e. `undefined`
rather than an error, and in general the normally returned value is the
`token` field of the successful response. -/
theorem getBearerToken_failure_and_success (st : DownloaderState)
    (resp : GetSessionResponse) (h : st.isAuthenticated = true) :
    (resp.ok = false →
        (getBearerToken st resp).2 = .error .tokenDerivationFailed)
      ∧ (resp.ok = true → resp.json = none →
          (getBearerToken st resp).2 = .error .invalidJson)
      ∧ (∀ tf, resp.ok = true → resp.json = some tf →
          (getBearerToken st resp).2 = .ok tf) := by
  refine ⟨?_, ?_, ?_⟩
  · intro hok
    simp [getBearerToken, h, hok]
  · intro hok hj
    simp [getBearerToken, h, hok, hj]
  · intro tf hok hj
    simp [getBearerToken, h, hok, hj]

/-- C5 amended, witness: one concrete response per case of the amended
statement — a non-success response, a success response with an invalid
body, and a success response carrying a token — each through the
theorem with its premises discharged. -/
theorem getBearerToken_failure_and_success_witness :
    (getBearerToken authedState { ok := false, json := some (some "tok1") }).2
        = .error .tokenDerivationFailed
      ∧ (getBearerToken authedState { ok := true, json := none }).2
          = .error .invalidJson
      ∧ (getBearerToken authedState { ok := true, json := some (some "tok1") }).2
          = .ok (some "tok1") :=
  ⟨(getBearerToken_failure_and_success authedState
      { ok := false, json := some (some "tok1") } rfl).1 rfl,
   (getBearerToken_failure_and_success authedState
      { ok := true, json := none } rfl).2.1 rfl rfl,
   (getBearerToken_failure_and_success authedState
      { ok := true, json := some (some "tok1") } rfl).2.2
     (some "tok1") rfl rfl⟩

/-- The interactive-login path always leads with the browser login as its
first external effect. -/
theorem freshLogin_head (st : DownloaderState) (env : AuthEnv) :
    (freshLogin st env).1.head? = some Event.interactiveLogin := by
  unfold freshLogin
  split
  · rfl
  · split <;> rfl

/-- C1: on a fresh downloader instance, even when a still-usable session
is cached, `authenticate` performs the interactive browser login: the
cached-session probe `this.getBearerToken()` is evaluated while
`#isAuthenticated` is still `false`, so it throws `AuthenticationError`
before issuing any request (first conjunct), the `catch` discards the
cached session, and the very first external effect of the call is the
interactive login (second conjunct) — for every probe response, i.e. even
when the server would have accepted the cached session. -/
theorem authenticate_fresh_instance_ignores_cache (env : AuthEnv)
    (cs : List Cookie) (h : env.cached = some cs) :
    getBearerToken initialState env.probeResp
        = ([], .error .authenticationRequired)
      ∧ (authenticate initialState env).1.head? = some Event.interactiveLogin := by
  refine ⟨rfl, ?_⟩
  unfold authenticate
  rw [h]
  have hp : getBearerToken initialState env.probeResp
      = ([], .error .authenticationRequired) := rfl
  rw [hp]
  rcases hF : freshLogin initialState env with ⟨evs2, r⟩
  have hh := freshLogin_head initialState env
  rw [hF] at hh
  simpa using hh

/-- C1, witness: a concrete environment with a cached, server-accepted
session; the fresh-instance call still leads with the interactive login. -/
theorem authenticate_fresh_instance_ignores_cache_witness :
    getBearerToken initialState
        ({ cached := some [persistentCookie]
           probeResp := { ok := true, json := some (some "tok1") }
           loginCookies := [persistentCookie]
           postLoginResp := { ok := true, json := some (some "tok1") }
           saveFails := false } : AuthEnv).probeResp
        = ([], .error .authenticationRequired)
      ∧ (authenticate initialState
          { cached := some [persistentCookie]
            probeResp := { ok := true, json := some (some "tok1") }
            loginCookies := [persistentCookie]
            postLoginResp := { ok := true, json := some (some "tok1") }
            saveFails := false }).1.head? = some Event.interactiveLogin :=
  authenticate_fresh_instance_ignores_cache
    { cached := some [persistentCookie]
      probeResp := { ok := true, json := some (some "tok1") }
      loginCookies := [persistentCookie]
      postLoginResp := { ok := true, json := some (some "tok1") }
      saveFails := false } [persistentCookie] rfl

/-- C6: persisting the fresh session is best-effort.  Whether the
`saveCookies` call fails or not, `authenticate` returns the same result
(first conjunct) — in particular a persistence failure never makes it
fail; and on the fresh-login path with a successful `getsession` response
the call succeeds with the authenticated state (login cookies adopted,
`#isAuthenticated = true`, bearer token derived) even when persistence
fails (second conjunct). -/
theorem authenticate_persistence_best_effort (st : DownloaderState)
    (cached : Option (List Cookie)) (probeResp : GetSessionResponse)
    (loginCookies : List Cookie) (postLoginResp : GetSessionResponse)
    (b1 b2 : Bool) :
    authenticate st ⟨cached, probeResp, loginCookies, postLoginResp, b1⟩
        = authenticate st ⟨cached, probeResp, loginCookies, postLoginResp, b2⟩
      ∧ (∀ tok, cached = none → postLoginResp = ⟨true, some tok⟩ →
          authenticate st ⟨cached, probeResp, loginCookies, postLoginResp, b1⟩
            = ([Event.interactiveLogin,
                Event.getSessionRequest (sessionCookiesHttpString loginCookies),
                Event.saveAttempt],
               .ok { st with
                 sessionCookies := loginCookies
                 isAuthenticated := true
                 bearerToken := tok })) := by
  constructor
  · cases b1 <;> cases b2 <;> rfl
  · intro tok hc hpost
    subst hc
    subst hpost
    cases b1 <;> rfl

/-- C6, witness: a concrete fresh-login environment whose persistence
fails; the result matches the non-failing run and carries the
authenticated state. -/
theorem authenticate_persistence_best_effort_witness :
    authenticate initialState
        ⟨none, ⟨true, some (some "tok1")⟩, [persistentCookie],
          ⟨true, some (some "tok1")⟩, true⟩
        = authenticate initialState
          ⟨none, ⟨true, some (some "tok1")⟩, [persistentCookie],
            ⟨true, some (some "tok1")⟩, false⟩
      ∧ authenticate initialState
          ⟨none, ⟨true, some (some "tok1")⟩, [persistentCookie],
            ⟨true, some (some "tok1")⟩, true⟩
          = ([Event.interactiveLogin,
              Event.getSessionRequest
                (sessionCookiesHttpString [persistentCookie]),
              Event.saveAttempt],
             .ok { initialState with
               sessionCookies := [persistentCookie]
               isAuthenticated := true
               bearerToken := some "tok1" }) :=
  ⟨(authenticate_persistence_best_effort initialState none
      ⟨true, some (some "tok1")⟩ [persistentCookie]
      ⟨true, some (some "tok1")⟩ true false).1,
   (authenticate_persistence_best_effort initialState none
      ⟨true, some (some "tok1")⟩ [persistentCookie]
      ⟨true, some (some "tok1")⟩ true false).2 (some "tok1") rfl rfl⟩

/-- C2: the date-horizon guard of `bulkDownload` is computed as
`sub(now, { months: 12 })`, not 24 — contradicting the function's own doc
comment and error message ("within the last 24 months").  At current time
2024-06-01, the range [2023-01-01, 2024-01-01] lies entirely within the
24-month horizon (first three conjuncts), yet the call is rejected with
the "from" invalid-date-range error (fourth conjunct). -/
theorem bulkDownload_horizon_is_12_months_not_24 :
    toMillis (subMonths ⟨2024, 6, 1, 0⟩ 24) ≤ toMillis ⟨2023, 1, 1, 0⟩
      ∧ toMillis (⟨2023, 1, 1, 0⟩ : CalDate) ≤ toMillis ⟨2024, 1, 1, 0⟩
      ∧ toMillis (⟨2024, 1, 1, 0⟩ : CalDate) ≤ toMillis ⟨2024, 6, 1, 0⟩
      ∧ (bulkDownload authedActive9999 "9999" (toMillis ⟨2023, 1, 1, 0⟩)
          (toMillis ⟨2024, 1, 1, 0⟩) benignEnv).2
          = .error .invalidRangeFrom := by
  decide

/-- C3, counterexample: an authenticated call whose dates violate the
`from ≤ to` precondition (from = 2024-03-01, to = 2024-02-01) and whose
requested account differs from the active one.  The validation error is
raised, but the trace already contains the account-activation network
request — so the error is *not* raised before any network request. -/
theorem bulkDownload_activation_precedes_validation :
    bulkDownload authedNoAccount "1234" (toMillis ⟨2024, 3, 1, 0⟩)
        (toMillis ⟨2024, 2, 1, 0⟩) benignEnv
      = ([Event.activateRequest "1234"], .error .invalidRangeOrder) := by
  decide

/-- C3, amended: when an authenticated `bulkDownload` call has date
arguments violating a precondition, the validation error is raised before
the bill-history request and before any bill download — but *after* the
account-activation request, which is issued whenever the requested
account differs from the currently active one (assuming activation
succeeds; its failure would preempt validation entirely). -/
theorem bulkDownload_validation_before_history (st : DownloaderState)
    (acct : String) (f t : Int) (env : BulkEnv) (e : DlError)
    (hauth : st.isAuthenticated = true)
    (hact : st.activeAccount = some acct ∨ env.activateOk = true)
    (hval : validateRange env.now f t = .error e) :
    bulkDownload st acct f t env
      = ((if st.activeAccount = some acct then []
          else [Event.activateRequest acct]), .error e) := by
  have hr : ∀ s : DownloaderState, bulkDownloadRest s f t env = ([], .error e) := by
    intro s
    simp only [bulkDownloadRest, hval]
  by_cases hA : st.activeAccount = some acct
  · simp [bulkDownload, hauth, hA, hr]
  · have hok : env.activateOk = true := hact.resolve_left hA
    simp [bulkDownload, hauth, hA, hr, activateAccount, hok]

/-- C3 amended, witness: the concrete invalid-order call above, through
the amended theorem. -/
theorem bulkDownload_validation_before_history_witness :
    bulkDownload authedNoAccount "1234" (toMillis ⟨2024, 3, 1, 0⟩)
        (toMillis ⟨2024, 2, 1, 0⟩) benignEnv
      = ((if authedNoAccount.activeAccount = some "1234" then []
          else [Event.activateRequest "1234"]),
         .error .invalidRangeOrder) :=
  bulkDownload_validation_before_history authedNoAccount "1234"
    (toMillis ⟨2024, 3, 1, 0⟩) (toMillis ⟨2024, 2, 1, 0⟩) benignEnv
    .invalidRangeOrder (by decide) (by decide) (by decide)

/-- When every download request succeeds, the download loop issues one
request per record, in listing order. -/
theorem downloadLoop_events (ok : Int → Bool) (l : List BillRecord)
    (h : ∀ b ∈ l, ok b.date = true) :
    downloadLoop ok l
      = (l.map (fun b => Event.downloadRequest b.date), .ok ()) := by
  induction l with
  | nil => rfl
  | cons b rest ih =>
    have hb := h b (List.mem_cons_self b rest)
    have hr := ih (fun x hx => h x (List.mem_cons_of_mem b hx))
    simp [downloadLoop, hb, hr]

/-- C7: an authenticated `bulkDownload` over the already-active account,
with valid dates and all endpoints succeeding, issues a download request
for exactly the records of the returned history whose date lies within
`[from, to]` inclusive (third conjunct), in a trace that is the history
request followed by those downloads in listing order (first conjunct); the
selected sublist preserves the original listing order (second conjunct). -/
theorem bulkDownload_selects_range_in_order (st : DownloaderState)
    (acct : String) (f t : Int) (env : BulkEnv)
    (hauth : st.isAuthenticated = true)
    (hacct : st.activeAccount = some acct)
    (hval : validateRange env.now f t = .ok ())
    (hbills : env.billsOk = true)
    (hdl : ∀ b ∈ env.bills, env.downloadOk b.date = true) :
    (bulkDownload st acct f t env).1
        = Event.billHistoryRequest ::
            (env.bills.filter (fun b => f ≤ b.date && b.date ≤ t)).map
              (fun b => Event.downloadRequest b.date)
      ∧ (env.bills.filter (fun b => f ≤ b.date && b.date ≤ t)).Sublist
          env.bills
      ∧ (∀ b ∈ env.bills,
          b ∈ env.bills.filter (fun b => f ≤ b.date && b.date ≤ t)
            ↔ f ≤ b.date ∧ b.date ≤ t) := by
  refine ⟨?_, List.filter_sublist _, ?_⟩
  · have hdl' : ∀ b ∈ env.bills.filter (fun b => f ≤ b.date && b.date ≤ t),
        env.downloadOk b.date = true :=
      fun b hb => hdl b (List.mem_of_mem_filter hb)
    have hrest : bulkDownloadRest st f t env
        = (Event.billHistoryRequest ::
            (env.bills.filter (fun b => f ≤ b.date && b.date ≤ t)).map
              (fun b => Event.downloadRequest b.date), .ok st) := by
      simp only [bulkDownloadRest, hval, getBills, hauth,
        Bool.true_eq_false, if_false, hbills,
        downloadLoop_events env.downloadOk _ hdl']
      rfl
    simp [bulkDownload, hauth, hacct, hrest]
  · intro b hb
    simp [List.mem_filter, hb]

/-- C7, witness: the concrete scenario at range
[2023-07-01, 2024-05-01]. -/
theorem bulkDownload_selects_range_in_order_witness :
    (bulkDownload authedActive9999 "9999" (toMillis ⟨2023, 7, 1, 0⟩)
          (toMillis ⟨2024, 5, 1, 0⟩) sampleEnv).1
        = Event.billHistoryRequest ::
            (sampleEnv.bills.filter
              (fun b => toMillis ⟨2023, 7, 1, 0⟩ ≤ b.date
                && b.date ≤ toMillis ⟨2024, 5, 1, 0⟩)).map
              (fun b => Event.downloadRequest b.date)
      ∧ (sampleEnv.bills.filter
          (fun b => toMillis ⟨2023, 7, 1, 0⟩ ≤ b.date
            && b.date ≤ toMillis ⟨2024, 5, 1, 0⟩)).Sublist sampleEnv.bills
      ∧ (∀ b ∈ sampleEnv.bills,
          b ∈ sampleEnv.bills.filter
              (fun b => toMillis ⟨2023, 7, 1, 0⟩ ≤ b.date
                && b.date ≤ toMillis ⟨2024, 5, 1, 0⟩)
            ↔ toMillis ⟨2023, 7, 1, 0⟩ ≤ b.date
                ∧ b.date ≤ toMillis ⟨2024, 5, 1, 0⟩) :=
  bulkDownload_selects_range_in_order authedActive9999 "9999"
    (toMillis ⟨2023, 7, 1, 0⟩) (toMillis ⟨2024, 5, 1, 0⟩) sampleEnv
    (by decide) (by decide) (by decide) (by decide) (by decide)

/-- The download loop never issues an activation request. -/
theorem countActivations_downloadLoop (ok : Int → Bool)
    (l : List BillRecord) :
    countActivations (downloadLoop ok l).1 = 0 := by
  induction l with
  | nil => rfl
  | cons b rest ih =>
    unfold downloadLoop
    rcases h : downloadLoop ok rest with ⟨evs, r⟩
    rw [h] at ih
    by_cases hb : ok b.date = true
    · simp [hb, h, countActivations, List.countP_cons, isActivation]
      simpa [countActivations] using ih
    · simp [hb, h, countActivations, List.countP_cons, isActivation]

/-- `getBills` never issues an activation request. -/
theorem countActivations_getBills (st1 : DownloaderState) (b : Bool)
    (l : List BillRecord) :
    countActivations (getBills st1 b l).1 = 0 := by
  unfold getBills
  by_cases h : st1.isAuthenticated = false <;>
    simp [h, countActivations, isActivation]

/-- The post-activation phase of `bulkDownload` never issues an
activation request. -/
theorem countActivations_bulkDownloadRest (st1 : DownloaderState)
    (f t : Int) (env : BulkEnv) :
    countActivations (bulkDownloadRest st1 f t env).1 = 0 := by
  unfold bulkDownloadRest
  cases hv : validateRange env.now f t with
  | error e => rfl
  | ok u =>
    dsimp only
    cases hgb : (getBills st1 env.billsOk env.bills).2 with
    | error e => exact countActivations_getBills st1 env.billsOk env.bills
    | ok bills =>
      dsimp only
      cases hdl : (downloadLoop env.downloadOk
          (bills.filter (fun b => f ≤ b.date && b.date ≤ t))).2 with
      | error e =>
        have h1 := countActivations_getBills st1 env.billsOk env.bills
        have h2 := countActivations_downloadLoop env.downloadOk
          (bills.filter (fun b => f ≤ b.date && b.date ≤ t))
        unfold countActivations at h1 h2 ⊢
        dsimp only
        rw [List.countP_append, h1, h2]
      | ok u2 =>
        have h1 := countActivations_getBills st1 env.billsOk env.bills
        have h2 := countActivations_downloadLoop env.downloadOk
          (bills.filter (fun b => f ≤ b.date && b.date ≤ t))
        unfold countActivations at h1 h2 ⊢
        dsimp only
        rw [List.countP_append, h1, h2]

/-- An authenticated `bulkDownload` call issues no activation request when
the requested account is already active, and exactly one otherwise. -/
theorem countActivations_bulkDownload (st : DownloaderState) (acct : String)
    (f t : Int) (env : BulkEnv) (hauth : st.isAuthenticated = true) :
    countActivations (bulkDownload st acct f t env).1
      = if st.activeAccount = some acct then 0 else 1 := by
  unfold bulkDownload
  rw [if_neg (by simp [hauth])]
  dsimp only
  by_cases hA : st.activeAccount = some acct
  · rw [if_neg (not_not_intro hA), if_pos hA]
    simpa [countActivations] using
      countActivations_bulkDownloadRest st f t env
  · rw [if_pos hA, if_neg hA]
    unfold activateAccount
    dsimp only
    by_cases hok : env.activateOk = false
    · rw [if_pos hok]
      simp [countActivations, isActivation]
    · rw [if_neg hok]
      have h0 := countActivations_bulkDownloadRest
        { st with activeAccount := some acct } f t env
      unfold countActivations at h0 ⊢
      simp [List.countP_append, List.countP_cons, isActivation, h0]

/-- A successful run of the post-activation phase returns the state it was
given. -/
theorem bulkDownloadRest_ok_state (st1 : DownloaderState) (f t : Int)
    (env : BulkEnv) (s : DownloaderState)
    (h : (bulkDownloadRest st1 f t env).2 = .ok s) : s = st1 := by
  unfold bulkDownloadRest at h
  cases hv : validateRange env.now f t with
  | error e => rw [hv] at h; simp at h
  | ok u =>
    rw [hv] at h
    dsimp only at h
    cases hgb : (getBills st1 env.billsOk env.bills).2 with
    | error e => rw [hgb] at h; simp at h
    | ok bills =>
      rw [hgb] at h
      dsimp only at h
      cases hdl : (downloadLoop env.downloadOk
          (bills.filter (fun b => f ≤ b.date && b.date ≤ t))).2 with
      | error e => rw [hdl] at h; simp at h
      | ok u2 =>
        rw [hdl] at h
        exact (Except.ok.inj h).symm

/-- A successful `bulkDownload` leaves the instance authenticated as
before with the requested account active. -/
theorem bulkDownload_ok_state (st st' : DownloaderState) (acct : String)
    (f t : Int) (env : BulkEnv)
    (h : (bulkDownload st acct f t env).2 = .ok st') :
    st'.isAuthenticated = st.isAuthenticated
      ∧ st'.activeAccount = some acct := by
  unfold bulkDownload at h
  by_cases hauth : st.isAuthenticated = false
  · rw [if_pos hauth] at h
    simp at h
  · rw [if_neg hauth] at h
    dsimp only at h
    by_cases hA : st.activeAccount = some acct
    · rw [if_neg (not_not_intro hA)] at h
      dsimp only at h
      have hs := bulkDownloadRest_ok_state st f t env st' h
      rw [hs, hA]
      exact ⟨rfl, rfl⟩
    · rw [if_pos hA] at h
      unfold activateAccount at h
      dsimp only at h
      by_cases hok : env.activateOk = false
      · rw [if_pos hok] at h
        simp at h
      · rw [if_neg hok] at h
        dsimp only at h
        have hs := bulkDownloadRest_ok_state
          { st with activeAccount := some acct } f t env st' h
        rw [hs]
        exact ⟨rfl, rfl⟩

/-- C9: within one authenticated downloader instance (fresh: no active
account yet), a successful bulk download for account `X` issues exactly
one activation request (first conjunct); a second call for `X` on the
resulting instance issues none (second conjunct), while a call for
`Y ≠ X` issues exactly one more — i.e. two across the pair of calls
(third conjunct); in general an authenticated call skips activation
precisely when the requested account equals the active one (fourth
conjunct). -/
theorem bulkDownload_activation_laziness (st st1 : DownloaderState)
    (X Y : String) (f t : Int) (env1 : BulkEnv)
    (hauth : st.isAuthenticated = true)
    (hfresh : st.activeAccount = none)
    (h1 : (bulkDownload st X f t env1).2 = .ok st1)
    (hXY : X ≠ Y) :
    countActivations (bulkDownload st X f t env1).1 = 1
      ∧ (∀ f2 t2 env2,
          countActivations (bulkDownload st1 X f2 t2 env2).1 = 0)
      ∧ (∀ f2 t2 env2,
          countActivations (bulkDownload st1 Y f2 t2 env2).1 = 1)
      ∧ (∀ st2 acct f2 t2 env2,
          (st2 : DownloaderState).isAuthenticated = true →
          (countActivations (bulkDownload st2 acct f2 t2 env2).1 = 0
            ↔ st2.activeAccount = some acct)) := by
  have hstate := bulkDownload_ok_state st st1 X f t env1 h1
  have hauth1 : st1.isAuthenticated = true := by
    rw [hstate.1, hauth]
  have hacc1 : st1.activeAccount = some X := hstate.2
  refine ⟨?_, ?_, ?_, ?_⟩
  · rw [countActivations_bulkDownload st X f t env1 hauth, hfresh]
    simp
  · intro f2 t2 env2
    rw [countActivations_bulkDownload st1 X f2 t2 env2 hauth1,
      if_pos hacc1]
  · intro f2 t2 env2
    rw [countActivations_bulkDownload st1 Y f2 t2 env2 hauth1, hacc1]
    simp [hXY]
  · intro st2 acct f2 t2 env2 hauth2
    rw [countActivations_bulkDownload st2 acct f2 t2 env2 hauth2]
    by_cases hA : st2.activeAccount = some acct
    · simp [hA]
    · simp [hA]

/-- C9, witness: a fresh authenticated instance, accounts 1000 and 2000,
a valid range, all endpoints succeeding. -/
theorem bulkDownload_activation_laziness_witness :
    countActivations (bulkDownload authedNoAccount "1000"
        (toMillis ⟨2024, 1, 1, 0⟩) (toMillis ⟨2024, 5, 1, 0⟩) benignEnv).1 = 1
      ∧ countActivations (bulkDownload
          { authedNoAccount with activeAccount := some "1000" } "1000"
          (toMillis ⟨2024, 1, 1, 0⟩) (toMillis ⟨2024, 5, 1, 0⟩)
          benignEnv).1 = 0
      ∧ countActivations (bulkDownload
          { authedNoAccount with activeAccount := some "1000" } "2000"
          (toMillis ⟨2024, 1, 1, 0⟩) (toMillis ⟨2024, 5, 1, 0⟩)
          benignEnv).1 = 1
      ∧ (countActivations (bulkDownload
            { authedNoAccount with activeAccount := some "1000" } "1000"
            (toMillis ⟨2024, 1, 1, 0⟩) (toMillis ⟨2024, 5, 1, 0⟩)
            benignEnv).1 = 0
          ↔ ({ authedNoAccount with activeAccount := some "1000" }
              : DownloaderState).activeAccount = some "1000") :=
  have h := bulkDownload_activation_laziness authedNoAccount
    { authedNoAccount with activeAccount := some "1000" } "1000" "2000"
    (toMillis ⟨2024, 1, 1, 0⟩) (toMillis ⟨2024, 5, 1, 0⟩) benignEnv
    (by decide) (by decide) (by decide) (by decide)
  ⟨h.1,
   h.2.1 (toMillis ⟨2024, 1, 1, 0⟩) (toMillis ⟨2024, 5, 1, 0⟩) benignEnv,
   h.2.2.1 (toMillis ⟨2024, 1, 1, 0⟩) (toMillis ⟨2024, 5, 1, 0⟩) benignEnv,
   h.2.2.2 { authedNoAccount with activeAccount := some "1000" } "1000"
     (toMillis ⟨2024, 1, 1, 0⟩) (toMillis ⟨2024, 5, 1, 0⟩) benignEnv
     (by decide)⟩

/-- Structural round-trip of the serialization of one cookie. -/
theorem cookieOfJson_cookieToJson (c : Cookie) :
    cookieOfJson (cookieToJson c) = some c := by
  simp [cookieToJson, cookieOfJson]

/-- Structural round-trip of the serialization of a cookie list. -/
theorem cookiesOfJsonList_map (l : List Cookie) :
    cookiesOfJsonList (l.map cookieToJson) = some l := by
  induction l with
  | nil => rfl
  | cons c cs ih =>
    simp only [List.map_cons, cookiesOfJsonList,
      cookieOfJson_cookieToJson, ih]

/-- Structural round-trip of the serialization of a cookie array. -/
theorem cookiesOfJson_cookiesToJson (cookies : List Cookie) :
    cookiesOfJson (cookiesToJson cookies) = some cookies := by
  simpa [cookiesOfJson, cookiesToJson] using cookiesOfJsonList_map cookies

/-- C8: round-trip — for every digest function, filesystem state,
username and cookie array, `saveCookies` followed by `getCookies` for the
same username returns exactly the saved cookie array (hence equal names,
values and domains). -/
theorem saveCookies_getCookies_roundtrip (md5hex : String → String)
    (fs : FileSystem) (username : String) (cookies : List Cookie) :
    getCookies md5hex (saveCookies md5hex fs username cookies) username
      = some cookies := by
  unfold getCookies saveCookies storageSet storageGet
  simp only [List.lookup, beq_self_eq_true, if_true]
  exact cookiesOfJson_cookiesToJson cookies
